import Mathlib

/-
Verification of the stream-correlation and risk-classification core of the
Retail-Trust backend (src/models.py, src/fraud_engine.py, src/main.py).

The Python core is embedded shallowly:
  - pydantic models become Lean structures; pydantic construction of a model
    from keyword arguments becomes an explicit validation function over
    Option-wrapped arguments (none = keyword not passed), mirroring pydantic
    v2 behaviour: a declared field with no default that receives no keyword
    fails validation, and undeclared keywords are silently dropped under the
    default extra handling;
  - the two pending dictionaries of FraudEngine become association lists with
    Python dict semantics (lookup, overwrite-insert, delete);
  - each async entry point of FraudEngine (process_vas, process_pos, the
    _check_timeout and _cleanup_pos timer callbacks) becomes a pure function
    from correlator state to correlator state plus a list of observable
    TraceItem values: a pair handed to _analyze_pair, a record pushed through
    update_callback, a printed diagnostic for a dropped event, or an
    exception propagating out of the entry point;
  - timer scheduling is modelled by letting timer callbacks arrive as
    separate inputs at any later point, exactly the fire-and-forget
    discipline of the source (asyncio.create_task with no cancellation);
  - float fields carrying money are modelled as rationals and unix
    timestamps as integers; no verified property depends on rounding.
-/

namespace Retail

/-- models.TransactionMode: string enum with values Cash, Card, UPI. -/
inductive TransactionMode where
  | CASH
  | CARD
  | UPI
deriving DecidableEq

/-- The string value of a models.TransactionMode member. -/
def TransactionMode.value : TransactionMode → String
  | TransactionMode.CASH => "Cash"
  | TransactionMode.CARD => "Card"
  | TransactionMode.UPI => "UPI"

/-- models.TransactionStatus: string enum genuine, fraudulent, suspicious, pending. -/
inductive TransactionStatus where
  | GENUINE
  | FRAUDULENT
  | SUSPICIOUS
  | PENDING
deriving DecidableEq

/-- models.AlertStatus: string enum; only NEW is used by the engine. -/
inductive AlertStatus where
  | NEW
  | REVIEWING
  | RESOLVED
  | FRAUDULENT
  | PENDING_REVIEW
  | GENUINE
deriving DecidableEq

/-- models.VASEvent: the vision-stream session event. -/
structure VASEvent where
  StoreId : String
  CamId : String
  SellerWindowId : String
  SessionId : String
  BillDate : String
  SessionStart : Int
  SessionEnd : Int
  ModeOfTransaction : TransactionMode
  ReceiptGenerationStatus : Bool
deriving DecidableEq

/-- models.POSEvent: the point-of-sale bill event. The model declares
StoreId, CashierName, POSId, BillDate, SessionTime, ModeOfTransaction and
TransactionTotal, and nothing else: in particular no DiscountPercent and no
RefundAmount field. -/
structure POSEvent where
  StoreId : String
  CashierName : String
  POSId : String
  BillDate : String
  SessionTime : Int
  ModeOfTransaction : TransactionMode
  TransactionTotal : Rat
deriving DecidableEq

/-- The keyword arguments stream_simulator.generate_scenario passes to the
POSEvent constructor: the declared fields plus DiscountPercent and
RefundAmount, which models.POSEvent does not declare. -/
structure POSEventArgs where
  StoreId : String
  CashierName : String
  POSId : String
  BillDate : String
  SessionTime : Int
  ModeOfTransaction : TransactionMode
  TransactionTotal : Rat
  DiscountPercent : Rat
  RefundAmount : Rat
deriving DecidableEq

/-- pydantic construction of a models.POSEvent from the simulator arguments:
the undeclared keywords DiscountPercent and RefundAmount are silently
dropped (pydantic default extra handling), so the constructed event carries
no discount or refund information. -/
def POSEvent.ofArgs (a : POSEventArgs) : POSEvent :=
  ⟨a.StoreId, a.CashierName, a.POSId, a.BillDate, a.SessionTime,
   a.ModeOfTransaction, a.TransactionTotal⟩

/-- hasattr(pos, "DiscountPercent") for a models.POSEvent instance: the model
declares no such field and pydantic drops undeclared constructor keywords,
so the attribute never exists and hasattr is False on every instance. -/
def POSEvent.hasDiscountPercent (_ : POSEvent) : Bool := false

/-- hasattr(pos, "RefundAmount") for a models.POSEvent instance: False for
the same reason as POSEvent.hasDiscountPercent. -/
def POSEvent.hasRefundAmount (_ : POSEvent) : Bool := false

/-- models.Transaction as declared in models.py lines 47-63: note the
required field fraud_probability_score with no default, and the absence of
any risk_level or triggered_rules field. -/
structure Transaction where
  id : String
  shop_id : String
  cam_id : String
  pos_id : String
  cashier_name : String
  timestamp : Int
  transaction_total : Rat
  fraud_probability_score : Rat
  status : TransactionStatus
  fraud_category : Option String
  notes : Option String
deriving DecidableEq

/-- models.Alert as declared in models.py lines 65-77: required field
fraud_probability_score with no default; no risk_level, no triggered_rules. -/
structure Alert where
  id : String
  transaction_id : String
  shop_id : String
  cashier_name : String
  fraud_probability_score : Rat
  timestamp : Int
  status : AlertStatus
deriving DecidableEq

/-- Names of the required fields among a list of (field name, keyword was
passed) pairs: the fields pydantic reports as missing. -/
def missingFields (checks : List (String × Bool)) : List String :=
  (checks.filter (fun c => c.2 == false)).map Prod.fst

/-- pydantic v2 construction of models.Transaction from keyword arguments.
Every parameter is Option-wrapped: none means the keyword was not passed.
The parameters risk_level and triggered_rules are accepted and dropped, as
pydantic drops keywords that are not declared fields; a declared field
without a default (the first eight) must be passed or validation fails. -/
def Transaction.validate
    (id shop_id cam_id pos_id cashier_name : Option String)
    (timestamp : Option Int)
    (transaction_total fraud_probability_score : Option Rat)
    (_risk_level : Option String) (_triggered_rules : Option (List String))
    (status : Option TransactionStatus)
    (fraud_category notes : Option (Option String)) :
    Except String Transaction :=
  match id, shop_id, cam_id, pos_id, cashier_name, timestamp,
        transaction_total, fraud_probability_score with
  | some i, some sh, some ca, some po, some cn, some ts, some tt, some fps =>
      Except.ok ⟨i, sh, ca, po, cn, ts, tt, fps,
        status.getD TransactionStatus.PENDING,
        fraud_category.getD none, notes.getD none⟩
  | _, _, _, _, _, _, _, _ =>
      Except.error ("ValidationError for Transaction: fields required: " ++
        String.intercalate ", " (missingFields
          [("id", id.isSome), ("shop_id", shop_id.isSome),
           ("cam_id", cam_id.isSome), ("pos_id", pos_id.isSome),
           ("cashier_name", cashier_name.isSome),
           ("timestamp", timestamp.isSome),
           ("transaction_total", transaction_total.isSome),
           ("fraud_probability_score", fraud_probability_score.isSome)]))

/-- pydantic v2 construction of models.Alert from keyword arguments, in the
same style as Transaction.validate: risk_level and triggered_rules are
dropped, the first six fields are required, status defaults to NEW. -/
def Alert.validate
    (id transaction_id shop_id cashier_name : Option String)
    (fraud_probability_score : Option Rat)
    (_risk_level : Option String) (_triggered_rules : Option (List String))
    (timestamp : Option Int) (status : Option AlertStatus) :
    Except String Alert :=
  match id, transaction_id, shop_id, cashier_name, fraud_probability_score,
        timestamp with
  | some i, some tid, some sh, some cn, some fps, some ts =>
      Except.ok ⟨i, tid, sh, cn, fps, ts, status.getD AlertStatus.NEW⟩
  | _, _, _, _, _, _ =>
      Except.error ("ValidationError for Alert: fields required: " ++
        String.intercalate ", " (missingFields
          [("id", id.isSome), ("transaction_id", transaction_id.isSome),
           ("shop_id", shop_id.isSome), ("cashier_name", cashier_name.isSome),
           ("fraud_probability_score", fraud_probability_score.isSome),
           ("timestamp", timestamp.isSome)]))

/-- The error message Transaction.validate produces for the calls the engine
makes, which pass every required keyword except fraud_probability_score. -/
def txnRequiredMsg : String :=
  "ValidationError for Transaction: fields required: fraud_probability_score"

/-- The error message Alert.validate produces for the calls the engine
makes, which pass every required keyword except fraud_probability_score. -/
def alertRequiredMsg : String :=
  "ValidationError for Alert: fields required: fraud_probability_score"

/-- Observable effects of one engine entry point. A matched item records a
pair handed to _analyze_pair; an emit records an update_callback push; a
raised item records an exception propagating out of the entry point; a
dropped item records the printed diagnostic for a discarded event. -/
inductive Emission where
  | transaction (t : Transaction)
  | alert (a : Alert)
deriving DecidableEq

inductive TraceItem where
  | matched (v : VASEvent) (p : POSEvent)
  | emit (e : Emission)
  | raised (msg : String)
  | dropped (msg : String)
deriving DecidableEq

def isMatchedItem : TraceItem → Bool
  | TraceItem.matched _ _ => true
  | _ => false

def isEmitItem : TraceItem → Bool
  | TraceItem.emit _ => true
  | _ => false

def isRaisedItem : TraceItem → Bool
  | TraceItem.raised _ => true
  | _ => false

/-- The matched-pair items of a trace. -/
def matchedIn (tr : List TraceItem) : List TraceItem := tr.filter isMatchedItem

/-- main.stream_consumer feeds every simulator event to process_vas or
process_pos with no try/except, so the background consumer task dies as soon
as one entry point lets an exception escape. -/
def consumerCrashes (tr : List TraceItem) : Bool := tr.any isRaisedItem

/-- Python dict lookup d.get(k) over an association list. -/
def dictLookup {α : Type} : List (String × α) → String → Option α
  | [], _ => none
  | kv :: rest, k => if kv.1 = k then some kv.2 else dictLookup rest k

/-- Python dict key deletion del d[k] (removes the entry for k). -/
def dropKey {α : Type} (k : String) : List (String × α) → List (String × α)
  | [] => []
  | kv :: rest => if kv.1 = k then dropKey k rest else kv :: dropKey k rest

/-- Python dict assignment d[k] = v (insert or overwrite). -/
def dictInsert {α : Type} (m : List (String × α)) (k : String) (v : α) :
    List (String × α) :=
  (k, v) :: dropKey k m

/-- Python membership test k in d. -/
def dictContains {α : Type} (m : List (String × α)) (k : String) : Bool :=
  (dictLookup m k).isSome

/-- The store list of FraudEngine.__init__. -/
def stores : List String := ["STR001", "STR002", "STR003"]

/-- One lane row of the static configuration in FraudEngine.__init__. -/
structure Lane where
  cam_id : String
  window_id : String
  pos_id : String
deriving DecidableEq

/-- The lane table of FraudEngine.__init__. -/
def lanes : List Lane :=
  [⟨"CAM-01", "W1", "POS-01"⟩, ⟨"CAM-01", "W2", "POS-02"⟩,
   ⟨"CAM-02", "W1", "POS-03"⟩, ⟨"CAM-02", "W2", "POS-04"⟩]

/-- The compound window identity string built in FraudEngine.__init__ and
rebuilt in process_pos: store, camera and window joined by underscores. -/
def sellerWindowKey (store cam window : String) : String :=
  store ++ "_" ++ cam ++ "_" ++ window

/-- self.mapping of FraudEngine.__init__: SellerWindowId to POSId, one entry
per store and lane. -/
def mapping : List (String × String) :=
  (stores.map (fun store => lanes.map (fun lane =>
    (sellerWindowKey store lane.cam_id lane.window_id, lane.pos_id)))).flatten

/-- self.pos_config of FraudEngine.__init__: POSId to (CamId, WindowId), one
entry per lane, not scoped by store. -/
def pos_config : List (String × (String × String)) :=
  lanes.map (fun lane => (lane.pos_id, (lane.cam_id, lane.window_id)))

/-- The two pending buffers of FraudEngine: pending_vas keyed by
SellerWindowId and pending_pos keyed by StoreId_POSId. -/
structure CorrState where
  pendingVas : List (String × VASEvent)
  pendingPos : List (String × POSEvent)
deriving DecidableEq

def CorrState.empty : CorrState := ⟨[], []⟩

/-- Is the first character list a prefix of the second. -/
def charsPrefix : List Char → List Char → Bool
  | [], _ => true
  | _ :: _, [] => false
  | n :: ns, h :: hs => (n == h) && charsPrefix ns hs

/-- Does the needle occur as a contiguous run of the haystack. -/
def charsContains (needle : List Char) : List Char → Bool
  | [] => charsPrefix needle []
  | h :: hs => charsPrefix needle (h :: hs) || charsContains needle hs

/-- Python substring test (needle in hay), over the character data of the
two strings. -/
def strContains (hay needle : String) : Bool :=
  charsContains needle.data hay.data

/-- The rule description built by _analyze_pair for a payment mode mismatch,
an f-string over the two mode values. -/
def mismatchRule (vm pm : TransactionMode) : String :=
  "Payment Mode Mismatch (VAS: " ++ vm.value ++ ", POS: " ++ pm.value ++ ")"

/-- The triggered_rules list computed by _analyze_pair, rules evaluated in
the fixed source order. Rules 3 and 4 guard on hasattr for fields that
models.POSEvent does not declare, so their guards are always false and the
comparisons of DiscountPercent and RefundAmount behind the short-circuiting
conjunctions are never reached; the appended strings in those dead branches
are placeholders for the f-strings the source would build. -/
def triggeredRules (vas : VASEvent) (pos : POSEvent) : List String :=
  let rules1 :=
    if vas.ModeOfTransaction ≠ pos.ModeOfTransaction
    then [mismatchRule vas.ModeOfTransaction pos.ModeOfTransaction] else []
  let rules2 :=
    if !vas.ReceiptGenerationStatus
    then rules1 ++ ["Bill not generated in VAS"] else rules1
  let rules3 :=
    if pos.hasDiscountPercent
    then rules2 ++ ["High Discount (unreachable)"] else rules2
  let rules4 :=
    if pos.hasRefundAmount
    then rules3 ++ ["Refund Processed (unreachable)"] else rules3
  rules4

/-- The risk_level computation of _analyze_pair lines 146-156: risk starts
at Low; High if any triggered rule description contains Mismatch; else
Medium if any contains Bill not generated; else Medium if any rule
triggered; else Low. The inner comparisons against High mirror the source. -/
def riskLevelOf (triggered : List String) : String :=
  let risk := "Low"
  if triggered.any (fun r => strContains r "Mismatch") then "High"
  else if triggered.any (fun r => strContains r "Bill not generated") then
    (if risk ≠ "High" then "Medium" else risk)
  else if !triggered.isEmpty then
    (if risk ≠ "High" then "Medium" else risk)
  else risk

/-- Risk level of a matched pair. -/
def riskOf (vas : VASEvent) (pos : POSEvent) : String :=
  riskLevelOf (triggeredRules vas pos)

/-- The status computation of _analyze_pair lines 161-167: status starts as
PENDING and is always overwritten by the if-elif-else chain. -/
def statusOf (risk : String) : TransactionStatus :=
  if risk = "High" then TransactionStatus.FRAUDULENT
  else if risk = "Medium" then TransactionStatus.SUSPICIOUS
  else TransactionStatus.GENUINE

/-- The notes keyword _analyze_pair passes: comma-join of all triggered rule
descriptions, or None when no rule triggered. -/
def notesOf (rules : List String) : Option String :=
  if rules.isEmpty then none else some (String.intercalate ", " rules)

/-- FraudEngine._create_fraud_alert. The u parameter stands for the random
uuid hex the source draws for the alert id. With no transaction_id the
callee first builds and pushes a dummy no-bill Transaction (whose
fraud_category keyword subscripts rules with index 0, an IndexError on an
empty list); in both paths it then builds and pushes an Alert. Neither
constructor call passes fraud_probability_score. -/
def alertStep (u : String) (vas : VASEvent) (pos : Option POSEvent)
    (rules : List String) (risk : String) (tid : String) : List TraceItem :=
  match Alert.validate (some ("ALT-" ++ u)) (some tid) (some vas.StoreId)
      (some (match pos with | some p => p.CashierName | none => "Unknown"))
      none (some risk) (some rules) (some vas.SessionEnd)
      (some AlertStatus.NEW) with
  | Except.error msg => [TraceItem.raised msg]
  | Except.ok a => [TraceItem.emit (Emission.alert a)]

def createFraudAlert (u : String) (vas : VASEvent) (pos : Option POSEvent)
    (rules : List String) (risk : String) (transaction_id : Option String) :
    List TraceItem :=
  match transaction_id with
  | some tid => alertStep u vas pos rules risk tid
  | none =>
    let tid := "TXN-" ++ vas.SessionId
    match rules with
    | [] => [TraceItem.raised "IndexError: list index out of range"]
    | r0 :: _ =>
      match Transaction.validate (some tid) (some vas.StoreId) (some vas.CamId)
          (some ((dictLookup mapping vas.SellerWindowId).getD "Unknown"))
          (some "Unknown") (some vas.SessionEnd) (some 0) none
          (some risk) (some rules) (some TransactionStatus.FRAUDULENT)
          (some (some r0)) (some (some (String.intercalate "; " rules))) with
      | Except.error msg => [TraceItem.raised msg]
      | Except.ok t =>
          TraceItem.emit (Emission.transaction t) ::
            alertStep u vas pos rules risk tid

/-- FraudEngine._analyze_pair: evaluate the rules, build a Transaction with
the keywords of lines 170-183 (fraud_probability_score is not among them;
risk_level and triggered_rules are, but the model does not declare them),
push it, then call _create_fraud_alert when risk is High or Medium. -/
def analyzePair (u : String) (vas : VASEvent) (pos : POSEvent) :
    List TraceItem :=
  let rules := triggeredRules vas pos
  let risk := riskLevelOf rules
  let status := statusOf risk
  match Transaction.validate (some ("TXN-" ++ vas.SessionId))
      (some vas.StoreId) (some vas.CamId) (some pos.POSId)
      (some pos.CashierName) (some pos.SessionTime)
      (some pos.TransactionTotal) none
      (some risk) (some rules) (some status)
      (some rules.head?) (some (notesOf rules)) with
  | Except.error msg => [TraceItem.raised msg]
  | Except.ok t =>
      TraceItem.emit (Emission.transaction t) ::
        (if risk = "High" || risk = "Medium"
         then createFraudAlert u vas (some pos) rules risk (some t.id)
         else [])

/-- FraudEngine.process_vas. The falsy test on the mapping lookup (Python
if not expected_pos_id) also discards an empty-string value. On a hit in
pending_pos the bill is popped and the pair handed to _analyze_pair; else
the session is buffered under its SellerWindowId and a 120-unit
_check_timeout timer is scheduled (modelled as a later Input.vasTimer). -/
def processVas (u : String) (st : CorrState) (event : VASEvent) :
    CorrState × List TraceItem :=
  let swid := event.SellerWindowId
  match dictLookup mapping swid with
  | none => (st, [TraceItem.dropped ("Unknown mapping for " ++ swid)])
  | some expected_pos_id =>
    if expected_pos_id = "" then
      (st, [TraceItem.dropped ("Unknown mapping for " ++ swid)])
    else
      let pos_key := event.StoreId ++ "_" ++ expected_pos_id
      match dictLookup st.pendingPos pos_key with
      | some pos_event =>
          (CorrState.mk st.pendingVas (dropKey pos_key st.pendingPos),
           TraceItem.matched event pos_event :: analyzePair u event pos_event)
      | none =>
          (CorrState.mk (dictInsert st.pendingVas swid event) st.pendingPos,
           [])

/-- FraudEngine.process_pos: resolve (CamId, WindowId) from pos_config,
rebuild the expected SellerWindowId with the store of the bill; on a hit in
pending_vas pop and hand the pair to _analyze_pair; else buffer the bill
under StoreId_POSId and schedule a 150-unit _cleanup_pos timer (modelled as
a later Input.posTimer). -/
def processPos (u : String) (st : CorrState) (event : POSEvent) :
    CorrState × List TraceItem :=
  match dictLookup pos_config event.POSId with
  | none =>
      (st, [TraceItem.dropped
              ("Unknown POS configuration for " ++ event.POSId)])
  | some cw =>
    let expected_swid := sellerWindowKey event.StoreId cw.1 cw.2
    match dictLookup st.pendingVas expected_swid with
    | some vas_event =>
        (CorrState.mk (dropKey expected_swid st.pendingVas) st.pendingPos,
         TraceItem.matched vas_event event :: analyzePair u vas_event event)
    | none =>
        let pos_key := event.StoreId ++ "_" ++ event.POSId
        (CorrState.mk st.pendingVas (dictInsert st.pendingPos pos_key event),
         [])

/-- FraudEngine._check_timeout after its 120-unit sleep: if the session is
still buffered under its key and is the same event the timer was scheduled
for (pydantic equality is field-by-field), remove it, and when its
ReceiptGenerationStatus is true call _create_fraud_alert with the no-bill
rule and High risk and no transaction_id. -/
def checkTimeout (u : String) (st : CorrState) (seller_window_id : String)
    (vas_event : VASEvent) : CorrState × List TraceItem :=
  match dictLookup st.pendingVas seller_window_id with
  | some current =>
      if current = vas_event then
        let st1 := CorrState.mk (dropKey seller_window_id st.pendingVas)
          st.pendingPos
        if vas_event.ReceiptGenerationStatus then
          (st1, createFraudAlert u vas_event none
            ["Corresponding object is not present in VAS for POS and vise versa"]
            "High" none)
        else (st1, [])
      else (st, [])
  | none => (st, [])

/-- The sleep of _check_timeout, in time units. -/
def checkTimeoutDelay : Nat := 120

/-- The sleep of the effective _cleanup_pos. fraud_engine.py defines
_cleanup_pos twice, first with a 30-unit sleep and then with a 150-unit
sleep; Python binds the later definition, so every scheduled cleanup waits
150 units. -/
def cleanupPosDelay : Nat := 150

/-- FraudEngine._cleanup_pos (the later, effective definition) after its
150-unit sleep: delete the buffered bill if its key is still present;
nothing is pushed through update_callback on this path. -/
def cleanupPos (st : CorrState) (pos_key : String) :
    CorrState × List TraceItem :=
  if dictContains st.pendingPos pos_key then
    (CorrState.mk st.pendingVas (dropKey pos_key st.pendingPos), [])
  else (st, [])

/-- One input the engine can receive: an event from either stream, or a
previously scheduled timer callback firing. -/
inductive Input where
  | vas (e : VASEvent)
  | pos (e : POSEvent)
  | vasTimer (key : String) (e : VASEvent)
  | posTimer (key : String)

/-- Dispatch one input to the corresponding entry point. -/
def step (u : String) (st : CorrState) (i : Input) :
    CorrState × List TraceItem :=
  match i with
  | Input.vas e => processVas u st e
  | Input.pos e => processPos u st e
  | Input.vasTimer k e => checkTimeout u st k e
  | Input.posTimer k => cleanupPos st k

/-- Process a list of inputs in order, concatenating the traces. -/
def runTrace (u : String) (st : CorrState) : List Input → CorrState × List TraceItem
  | [] => (st, [])
  | i :: rest =>
    let r := step u st i
    let r2 := runTrace u r.1 rest
    (r2.1, r.2 ++ r2.2)

/-- A session and a bill share a consistent identity per the lane table:
same store, the forward mapping sends the window identity of the session to
the terminal of the bill, and the reverse configuration sends that terminal
back to a camera and window that rebuild the window identity of the session. -/
def correspond (S : VASEvent) (B : POSEvent) : Prop :=
  S.StoreId = B.StoreId ∧
  dictLookup mapping S.SellerWindowId = some B.POSId ∧
  ∃ cw, dictLookup pos_config B.POSId = some cw ∧
        S.SellerWindowId = sellerWindowKey B.StoreId cw.1 cw.2

/-- Example session of spec section 8: store STR001, camera CAM-01, window
W1, mode Card, receipt generated. -/
def vasExample : VASEvent :=
  ⟨"STR001", "CAM-01", "STR001_CAM-01_W1", "S-1", "2025-01-01", 0, 60,
   TransactionMode.CARD, true⟩

/-- Simulator arguments for the matching bill with mode UPI (the payment
mismatch example of spec section 8). -/
def posArgsMismatch : POSEventArgs :=
  ⟨"STR001", "Sarah Johnson", "POS-01", "2025-01-01", 61,
   TransactionMode.UPI, 100, 0, 0⟩

def posExampleMismatch : POSEvent := POSEvent.ofArgs posArgsMismatch

/-- Simulator arguments for the high-discount example of spec section 8:
mode Card, discount 25, refund 0. -/
def posArgsDiscount : POSEventArgs :=
  ⟨"STR001", "Sarah Johnson", "POS-01", "2025-01-01", 61,
   TransactionMode.CARD, 100, 25, 0⟩

def posExampleDiscount : POSEvent := POSEvent.ofArgs posArgsDiscount

theorem dictLookup_dictInsert_self {α : Type} (m : List (String × α))
    (k : String) (v : α) : dictLookup (dictInsert m k v) k = some v := by
  simp [dictInsert, dictLookup]

theorem dictLookup_dropKey_self {α : Type} (k : String)
    (m : List (String × α)) : dictLookup (dropKey k m) k = none := by
  induction m with
  | nil => rfl
  | cons a rest ih =>
    unfold dropKey
    by_cases h : a.1 = k
    · rw [if_pos h]; exact ih
    · rw [if_neg h]; unfold dictLookup; rw [if_neg h]; exact ih

theorem mem_dropKey {α : Type} {kv : String × α} {k : String}
    {m : List (String × α)} (h : kv ∈ dropKey k m) : kv ∈ m := by
  induction m with
  | nil => simp [dropKey] at h
  | cons a rest ih =>
    unfold dropKey at h
    by_cases ha : a.1 = k
    · rw [if_pos ha] at h; exact List.mem_cons_of_mem a (ih h)
    · rw [if_neg ha] at h
      rcases List.mem_cons.mp h with h1 | h2
      · exact h1 ▸ List.mem_cons_self a rest
      · exact List.mem_cons_of_mem a (ih h2)

/-- Every call _analyze_pair makes to the Transaction constructor omits the
required keyword fraud_probability_score, so pydantic validation fails and
the exception propagates out before anything reaches update_callback. -/
theorem analyzePair_spec (u : String) (vas : VASEvent) (pos : POSEvent) :
    analyzePair u vas pos = [TraceItem.raised txnRequiredMsg] := rfl

/-- The dummy no-bill Transaction of _create_fraud_alert fails pydantic
validation for the same reason, whenever the rule list is non-empty. -/
theorem createFraudAlert_dummy_spec (u : String) (e : VASEvent) (r : String)
    (rest : List String) (risk : String) :
    createFraudAlert u e none (r :: rest) risk none =
      [TraceItem.raised txnRequiredMsg] := rfl

/-- C1: the claim says a Transaction is always emitted for a matched pair
and an Alert exactly for Medium or High risk. In the code the Transaction
constructor call of _analyze_pair omits the required field
fraud_probability_score of models.Transaction (and passes risk_level and
triggered_rules, which the model does not declare), so for every matched
pair pydantic raises and the trace is exactly one escaped exception: no
Transaction and no Alert is ever pushed. -/
theorem c1_matched_pair_emits_nothing (u : String) (vas : VASEvent)
    (pos : POSEvent) :
    analyzePair u vas pos = [TraceItem.raised txnRequiredMsg] ∧
    (analyzePair u vas pos).all (fun t => !(isEmitItem t)) = true := by
  refine ⟨analyzePair_spec u vas pos, ?_⟩
  rw [analyzePair_spec]
  rfl

/-- C2: the claim says no unhandled exception escapes process_vas or
process_pos and the correlator keeps running. Feeding the matched example
pair of spec section 8 through the engine from the empty state makes the
pydantic ValidationError of the Transaction constructor escape process_pos;
main.stream_consumer has no try/except, so its async-for loop dies. -/
theorem c2_matched_pair_crashes_consumer :
    (runTrace "a1b2c3" CorrState.empty
        [Input.vas vasExample, Input.pos posExampleMismatch]).2 =
      [TraceItem.matched vasExample posExampleMismatch,
       TraceItem.raised txnRequiredMsg] ∧
    consumerCrashes ((runTrace "a1b2c3" CorrState.empty
        [Input.vas vasExample, Input.pos posExampleMismatch]).2) = true := by
  constructor
  · rfl
  · rfl

/-- C3: the claim says an expired session with receiptGenerated true yields
exactly one High-risk no-bill Transaction and one Alert, and one with the
flag false yields neither. In the code the receipt-false half holds, but in
the receipt-true half _create_fraud_alert fails pydantic validation on the
dummy Transaction (missing fraud_probability_score), so the entry is removed
and the callback raises: no Transaction and no Alert is pushed. -/
theorem c3_session_timeout_outcome (u : String) (st : CorrState) (k : String)
    (e : VASEvent) (h : dictLookup st.pendingVas k = some e) :
    checkTimeout u st k e =
      (CorrState.mk (dropKey k st.pendingVas) st.pendingPos,
       if e.ReceiptGenerationStatus then [TraceItem.raised txnRequiredMsg]
       else []) := by
  unfold checkTimeout
  rw [h]
  simp only [if_pos rfl]
  cases hR : e.ReceiptGenerationStatus
  · simp
  · simp [createFraudAlert_dummy_spec]

def stC3 : CorrState := ⟨[("STR001_CAM-01_W1", vasExample)], []⟩

theorem c3_session_timeout_outcome_witness :
    checkTimeout "u" stC3 "STR001_CAM-01_W1" vasExample =
      (CorrState.mk [] [], [TraceItem.raised txnRequiredMsg]) :=
  (c3_session_timeout_outcome "u" stC3 "STR001_CAM-01_W1" vasExample rfl).trans rfl

/-- C4: the claim says the High-discount rule fires exactly when the bill
discount exceeds 20 and the refund rule when the refund exceeds 0, and that
the example pair (modes equal, receipt generated, discount 25, refund 0)
yields risk Medium, one triggered rule, status Suspicious and one Alert. In
the code models.POSEvent declares neither DiscountPercent nor RefundAmount,
pydantic drops those simulator keywords, the hasattr guards are always
false, so the only rules that can ever trigger are the mismatch rule and the
bill-not-generated rule; the example pair triggers nothing: risk Low,
status Genuine, and (with the constructor defect) only an escaped
ValidationError. -/
theorem c4_discount_refund_rules_dead :
    (∀ (v : VASEvent) (p : POSEvent),
       (triggeredRules v p).all
         (fun r => (r == mismatchRule v.ModeOfTransaction p.ModeOfTransaction) ||
                   (r == "Bill not generated in VAS")) = true) ∧
    triggeredRules vasExample posExampleDiscount = [] ∧
    riskOf vasExample posExampleDiscount = "Low" ∧
    statusOf (riskOf vasExample posExampleDiscount) =
      TransactionStatus.GENUINE ∧
    analyzePair "u" vasExample posExampleDiscount =
      [TraceItem.raised txnRequiredMsg] := by
  refine ⟨?_, rfl, rfl, rfl, analyzePair_spec "u" vasExample posExampleDiscount⟩
  intro v p
  unfold triggeredRules
  simp only [POSEvent.hasDiscountPercent, POSEvent.hasRefundAmount,
    if_false, Bool.false_eq_true]
  split <;> split <;> simp

/-- C8: an event whose identity is absent from the lane configuration is
discarded with a printed diagnostic: the state is returned unchanged, no
record is pushed and no exception is raised, for the session side (window
identity absent from self.mapping) and the bill side (terminal identity
absent from self.pos_config) alike. -/
theorem c8_config_miss_drops_event :
    (∀ (u : String) (st : CorrState) (e : VASEvent),
       dictLookup mapping e.SellerWindowId = none →
       processVas u st e =
         (st, [TraceItem.dropped
                ("Unknown mapping for " ++ e.SellerWindowId)])) ∧
    (∀ (u : String) (st : CorrState) (e : POSEvent),
       dictLookup pos_config e.POSId = none →
       processPos u st e =
         (st, [TraceItem.dropped
                ("Unknown POS configuration for " ++ e.POSId)])) := by
  constructor
  · intro u st e h
    unfold processVas
    dsimp only
    rw [h]
  · intro u st e h
    unfold processPos
    rw [h]

def vasUnknown : VASEvent :=
  ⟨"STR009", "CAM-09", "STR009_CAM-09_W9", "S-9", "2025-01-01", 0, 60,
   TransactionMode.CASH, true⟩

theorem c8_config_miss_drops_event_witness :
    processVas "u" CorrState.empty vasUnknown =
      (CorrState.empty,
       [TraceItem.dropped ("Unknown mapping for " ++ vasUnknown.SellerWindowId)]) :=
  c8_config_miss_drops_event.1 "u" CorrState.empty vasUnknown rfl

/-- C6: the effective _cleanup_pos waits 150 units, strictly longer than the
120-unit _check_timeout; on firing it only deletes a still-present entry,
pushing nothing, and the buffering branch of process_pos also pushes
nothing, so a one-sided bill never yields a Transaction or an Alert. -/
theorem c6_bill_timeout_silent :
    checkTimeoutDelay = 120 ∧ cleanupPosDelay = 150 ∧
    checkTimeoutDelay < cleanupPosDelay ∧
    (∀ (st : CorrState) (k : String),
       dictContains st.pendingPos k = true →
       cleanupPos st k =
         (CorrState.mk st.pendingVas (dropKey k st.pendingPos), [])) ∧
    (∀ (st : CorrState) (k : String), (cleanupPos st k).2 = []) ∧
    (∀ (u : String) (st : CorrState) (e : POSEvent) (cw : String × String),
       dictLookup pos_config e.POSId = some cw →
       dictLookup st.pendingVas (sellerWindowKey e.StoreId cw.1 cw.2) = none →
       (processPos u st e).2 = []) := by
  refine ⟨rfl, rfl, by decide, ?_, ?_, ?_⟩
  · intro st k h
    simp [cleanupPos, h]
  · intro st k
    unfold cleanupPos
    split <;> rfl
  · intro u st e cw h1 h2
    unfold processPos
    rw [h1]
    dsimp only
    rw [h2]

def stC6 : CorrState := ⟨[], [("STR001_POS-01", posExampleMismatch)]⟩

theorem c6_bill_timeout_silent_witness :
    cleanupPos stC6 "STR001_POS-01" = (CorrState.mk [] [], []) :=
  (c6_bill_timeout_silent.2.2.2.1 stC6 "STR001_POS-01" rfl).trans rfl

theorem intercalate_pair (s a b : String) :
    String.intercalate s [a, b] = a ++ s ++ b := by
  simp [String.intercalate, String.intercalate.go]

theorem intercalate_single (s a : String) : String.intercalate s [a] = a := by
  simp [String.intercalate, String.intercalate.go]

set_option maxRecDepth 100000 in
theorem mismatchRule_hasMismatch (a b : TransactionMode) :
    strContains (mismatchRule a b) "Mismatch" = true := by
  cases a <;> cases b <;> decide

set_option maxRecDepth 100000 in
theorem mismatchRule_hasNoBng (a b : TransactionMode) :
    strContains (mismatchRule a b) "Bill not generated" = false := by
  cases a <;> cases b <;> decide

set_option maxRecDepth 100000 in
theorem bngRule_hasNoMismatch :
    strContains "Bill not generated in VAS" "Mismatch" = false := by decide

set_option maxRecDepth 100000 in
theorem bngRule_hasBng :
    strContains "Bill not generated in VAS" "Bill not generated" = true := by
  decide

/-- The triggered rule list is the mismatch rule when the modes differ
followed by the bill-not-generated rule when the receipt flag is false; the
discount and refund branches are dead (see triggeredRules). -/
theorem triggeredRules_eq (v : VASEvent) (p : POSEvent) :
    triggeredRules v p =
      (if v.ModeOfTransaction ≠ p.ModeOfTransaction
       then [mismatchRule v.ModeOfTransaction p.ModeOfTransaction] else []) ++
      (if v.ReceiptGenerationStatus then []
       else ["Bill not generated in VAS"]) := by
  unfold triggeredRules
  cases hr : v.ReceiptGenerationStatus <;>
    by_cases hm : v.ModeOfTransaction = p.ModeOfTransaction <;>
      simp [hm, hr, POSEvent.hasDiscountPercent, POSEvent.hasRefundAmount]

/-- Closed form of the risk computation over the two live rules. -/
theorem riskOf_eq (v : VASEvent) (p : POSEvent) :
    riskOf v p =
      if v.ModeOfTransaction ≠ p.ModeOfTransaction then "High"
      else if v.ReceiptGenerationStatus then "Low" else "Medium" := by
  unfold riskOf
  rw [triggeredRules_eq]
  by_cases hm : v.ModeOfTransaction = p.ModeOfTransaction <;>
    cases hr : v.ReceiptGenerationStatus <;>
      simp [hm, hr, riskLevelOf, mismatchRule_hasMismatch,
        mismatchRule_hasNoBng, bngRule_hasNoMismatch, bngRule_hasBng]

/-- C7: for every matched pair the computed risk level is High exactly when
the payment modes differ, Medium exactly when the modes agree and some rule
triggered, Low exactly when no rule triggered; the status is Fraudulent,
Suspicious, Genuine accordingly; risk is monotone (a mode mismatch forces
High no matter which Medium rules also trigger, in particular together with
the bill-not-generated rule the risk stays High and both rules are listed);
and the notes value joins every triggered rule description, not just the
first. -/
theorem c7_risk_status_notes : ∀ (v : VASEvent) (p : POSEvent),
    (riskOf v p = "High" ↔ v.ModeOfTransaction ≠ p.ModeOfTransaction) ∧
    (riskOf v p = "Medium" ↔
      (v.ModeOfTransaction = p.ModeOfTransaction ∧ triggeredRules v p ≠ [])) ∧
    (riskOf v p = "Low" ↔ triggeredRules v p = []) ∧
    (statusOf (riskOf v p) = TransactionStatus.FRAUDULENT ↔
      v.ModeOfTransaction ≠ p.ModeOfTransaction) ∧
    (statusOf (riskOf v p) = TransactionStatus.SUSPICIOUS ↔
      (v.ModeOfTransaction = p.ModeOfTransaction ∧ triggeredRules v p ≠ [])) ∧
    (statusOf (riskOf v p) = TransactionStatus.GENUINE ↔
      triggeredRules v p = []) ∧
    (v.ModeOfTransaction ≠ p.ModeOfTransaction → riskOf v p = "High") ∧
    (v.ModeOfTransaction ≠ p.ModeOfTransaction →
      v.ReceiptGenerationStatus = false →
      riskOf v p = "High" ∧
      triggeredRules v p =
        [mismatchRule v.ModeOfTransaction p.ModeOfTransaction,
         "Bill not generated in VAS"] ∧
      notesOf (triggeredRules v p) =
        some (mismatchRule v.ModeOfTransaction p.ModeOfTransaction ++ ", " ++
          "Bill not generated in VAS")) ∧
    (triggeredRules v p ≠ [] →
      notesOf (triggeredRules v p) =
        some (String.intercalate ", " (triggeredRules v p))) := by
  intro v p
  by_cases hm : v.ModeOfTransaction = p.ModeOfTransaction <;>
    cases hr : v.ReceiptGenerationStatus <;>
      simp [riskOf_eq, triggeredRules_eq, statusOf, notesOf, hm, hr,
        intercalate_pair, intercalate_single]

theorem c7_risk_status_notes_witness :
    riskOf vasExample posExampleMismatch = "High" :=
  ((c7_risk_status_notes vasExample posExampleMismatch).1).mpr (by decide)

/-- C9: within every configured store the lane table is a bijection between
compound window identities and terminals: the forward mapping sends the
window identity of each store and lane to the terminal of the lane, the
reverse configuration sends that terminal back to the camera and window
that, joined with the same store, rebuild the original window identity, and
distinct window identities of one store reach distinct terminals. -/
theorem c9_lane_table_bijection :
    ((stores.all fun st => lanes.all fun l =>
        (dictLookup mapping (sellerWindowKey st l.cam_id l.window_id) ==
          some l.pos_id) &&
        (match dictLookup pos_config l.pos_id with
         | some cw =>
             sellerWindowKey st cw.1 cw.2 ==
               sellerWindowKey st l.cam_id l.window_id
         | none => false)) = true) ∧
    ((stores.all fun st => lanes.all fun l1 => lanes.all fun l2 =>
        (sellerWindowKey st l1.cam_id l1.window_id ==
          sellerWindowKey st l2.cam_id l2.window_id) ||
        !(l1.pos_id == l2.pos_id)) = true) := by
  constructor
  · decide
  · decide

/-- C5: a session and a bill with corresponding identities, delivered in
either order while the counterpart keys are free and before any timer for
them fires, are matched into exactly one pair handed to rule evaluation,
and the stale timer of the buffered first event is a no-op once the entry
was consumed by the match: the session timer finds the key gone (identity
guard of _check_timeout) and the bill timer finds the key gone
(membership guard of _cleanup_pos), leaving state and trace untouched. -/
theorem c5_exactly_one_match (u1 u2 : String) (st : CorrState) (S : VASEvent)
    (B : POSEvent) (hc : correspond S B)
    (hv : dictLookup st.pendingVas S.SellerWindowId = none)
    (hp : dictLookup st.pendingPos (B.StoreId ++ "_" ++ B.POSId) = none) :
    matchedIn (runTrace u1 st [Input.vas S, Input.pos B]).2 =
      [TraceItem.matched S B] ∧
    checkTimeout u2 (runTrace u1 st [Input.vas S, Input.pos B]).1
        S.SellerWindowId S =
      ((runTrace u1 st [Input.vas S, Input.pos B]).1, []) ∧
    matchedIn (runTrace u1 st [Input.pos B, Input.vas S]).2 =
      [TraceItem.matched S B] ∧
    cleanupPos (runTrace u1 st [Input.pos B, Input.vas S]).1
        (B.StoreId ++ "_" ++ B.POSId) =
      ((runTrace u1 st [Input.pos B, Input.vas S]).1, []) := by
  obtain ⟨hst, hmap, cw, hcw, hswid⟩ := hc
  have hne : ¬ (B.POSId = "") := by
    intro h0
    rw [h0] at hcw
    simp [pos_config, lanes, dictLookup] at hcw
  have h1 : processVas u1 st S =
      (CorrState.mk (dictInsert st.pendingVas S.SellerWindowId S)
        st.pendingPos, []) := by
    simp only [processVas, hmap, if_neg hne, hst, hp]
  have h2 : processPos u1
      (CorrState.mk (dictInsert st.pendingVas S.SellerWindowId S)
        st.pendingPos) B =
      (CorrState.mk
        (dropKey S.SellerWindowId
          (dictInsert st.pendingVas S.SellerWindowId S)) st.pendingPos,
       TraceItem.matched S B :: analyzePair u1 S B) := by
    simp only [processPos, hcw, ← hswid, dictLookup_dictInsert_self]
  have h3 : processPos u1 st B =
      (CorrState.mk st.pendingVas
        (dictInsert st.pendingPos (B.StoreId ++ "_" ++ B.POSId) B), []) := by
    simp only [processPos, hcw, ← hswid, hv]
  have h4 : processVas u1
      (CorrState.mk st.pendingVas
        (dictInsert st.pendingPos (B.StoreId ++ "_" ++ B.POSId) B)) S =
      (CorrState.mk st.pendingVas
        (dropKey (B.StoreId ++ "_" ++ B.POSId)
          (dictInsert st.pendingPos (B.StoreId ++ "_" ++ B.POSId) B)),
       TraceItem.matched S B :: analyzePair u1 S B) := by
    simp only [processVas, hmap, if_neg hne, hst, dictLookup_dictInsert_self]
  refine ⟨?_, ?_, ?_, ?_⟩
  · simp [runTrace, step, h1, h2, matchedIn, analyzePair_spec,
      isMatchedItem]
  · simp only [runTrace, step, h1, h2]
    simp [checkTimeout, dictLookup_dropKey_self]
  · simp [runTrace, step, h3, h4, matchedIn, analyzePair_spec,
      isMatchedItem]
  · simp only [runTrace, step, h3, h4]
    simp [cleanupPos, dictContains, dictLookup_dropKey_self]

theorem c5_exactly_one_match_witness :
    matchedIn (runTrace "u1" CorrState.empty
        [Input.vas vasExample, Input.pos posExampleMismatch]).2 =
      [TraceItem.matched vasExample posExampleMismatch] :=
  (c5_exactly_one_match "u1" "u2" CorrState.empty vasExample
    posExampleMismatch ⟨rfl, rfl, ("CAM-01", "W1"), rfl, rfl⟩ rfl rfl).1

/-- The buffer-key invariant of C10: every pending_vas entry is keyed by the
SellerWindowId of the stored session and every pending_pos entry is keyed by
StoreId_POSId of the stored bill. -/
def buffersConsistent (st : CorrState) : Prop :=
  (∀ kv ∈ st.pendingVas, kv.1 = kv.2.SellerWindowId) ∧
  (∀ kv ∈ st.pendingPos, kv.1 = kv.2.StoreId ++ "_" ++ kv.2.POSId)

/-- C10: the buffer-key invariant is preserved by every operation on the
pending buffers: both event entry points (which insert under exactly those
keys or pop an entry) and both timer callbacks (which only delete). -/
theorem c10_pending_key_invariant (u : String) (st : CorrState) (i : Input)
    (h : buffersConsistent st) : buffersConsistent (step u st i).1 := by
  obtain ⟨hVas, hPos⟩ := h
  cases i with
  | vas e =>
    show buffersConsistent (processVas u st e).1
    unfold processVas
    dsimp only
    split
    · exact ⟨hVas, hPos⟩
    · split
      · exact ⟨hVas, hPos⟩
      · split
        · exact ⟨hVas, fun kv hkv => hPos kv (mem_dropKey hkv)⟩
        · refine ⟨?_, hPos⟩
          intro kv hkv
          simp only [dictInsert] at hkv
          rcases List.mem_cons.mp hkv with h1 | h2
          · rw [h1]
          · exact hVas kv (mem_dropKey h2)
  | pos e =>
    show buffersConsistent (processPos u st e).1
    unfold processPos
    dsimp only
    split
    · exact ⟨hVas, hPos⟩
    · split
      · exact ⟨fun kv hkv => hVas kv (mem_dropKey hkv), hPos⟩
      · refine ⟨hVas, ?_⟩
        intro kv hkv
        simp only [dictInsert] at hkv
        rcases List.mem_cons.mp hkv with h1 | h2
        · rw [h1]
        · exact hPos kv (mem_dropKey h2)
  | vasTimer k e =>
    show buffersConsistent (checkTimeout u st k e).1
    unfold checkTimeout
    dsimp only
    split
    · split
      · split
        · exact ⟨fun kv hkv => hVas kv (mem_dropKey hkv), hPos⟩
        · exact ⟨fun kv hkv => hVas kv (mem_dropKey hkv), hPos⟩
      · exact ⟨hVas, hPos⟩
    · exact ⟨hVas, hPos⟩
  | posTimer k =>
    show buffersConsistent (cleanupPos st k).1
    unfold cleanupPos
    split
    · exact ⟨hVas, fun kv hkv => hPos kv (mem_dropKey hkv)⟩
    · exact ⟨hVas, hPos⟩

theorem c10_pending_key_invariant_witness :
    buffersConsistent (step "u" CorrState.empty (Input.vas vasExample)).1 :=
  c10_pending_key_invariant "u" CorrState.empty (Input.vas vasExample)
    ⟨by simp [CorrState.empty], by simp [CorrState.empty]⟩

end Retail
